import Mathlib

/-!
Verification development for the `SceneGraph` component of the
haydenasplet/codesamples repository (src/SceneGraph.cpp together with its
header, src/unnamed/part_000).

The C++ code is shallowly embedded: `float` values are embedded as exact
rationals (ℚ), `int` values as ℤ, actors are records identified by a
numeric id (standing for the C++ object identity / pointer), and the
orchestrator's mutable state is a `SceneGraph` record threaded through
explicit state-passing functions.  The quad-tree cell class
(`QuadTreeCell`) and the `Point`/`Rect` utility templates are repository
code that is not present under src/, so those parts are modelled from the
spec, as flagged in their doc comments.
-/

namespace SceneGraphModel

/-- Modelled from the spec: the 2D `Point` utility template (its source is not
under src/).  Coordinates are embedded as exact rationals; the spec (§4.2)
specifies the coordinate transforms as exact algebraic inverses, so the
default `Point<>` parameter is taken at rational precision. -/
structure Pt where
  x : ℚ
  y : ℚ
deriving DecidableEq

/-- Componentwise addition, `Point::operator+`. -/
def Pt.add (a b : Pt) : Pt := ⟨a.x + b.x, a.y + b.y⟩

/-- Componentwise subtraction, `Point::operator-`. -/
def Pt.sub (a b : Pt) : Pt := ⟨a.x - b.x, a.y - b.y⟩

/-- Scalar multiplication, `Point::operator*` with a scalar on the right. -/
def Pt.mulScalar (p : Pt) (c : ℚ) : Pt := ⟨p.x * c, p.y * c⟩

/-- The `Point<int>` type, used by `GetTileDimensions`. -/
structure PtI where
  x : ℤ
  y : ℤ
deriving DecidableEq

/-- Modelled from the spec: the axis-aligned `Rect` utility template (its
source is not under src/; §2 "Bounding Region: an axis-aligned rectangle in
world units").  It follows the usual x/y/width/height convention with the
centre at the position plus half the extents, matching every use site in
src/SceneGraph.cpp (`GetLeft`/`GetRight`/`GetTop`/`GetBottom`/`SetX`/`SetY`/
`SetCentrePosition`/`GetCentrePosition`). -/
structure Rect where
  x : ℚ
  y : ℚ
  w : ℚ
  h : ℚ
deriving DecidableEq

def Rect.left (r : Rect) : ℚ := r.x
def Rect.right (r : Rect) : ℚ := r.x + r.w
def Rect.top (r : Rect) : ℚ := r.y
def Rect.bottom (r : Rect) : ℚ := r.y + r.h
def Rect.pos (r : Rect) : Pt := ⟨r.x, r.y⟩
def Rect.centre (r : Rect) : Pt := ⟨r.x + r.w / 2, r.y + r.h / 2⟩
def Rect.setX (r : Rect) (v : ℚ) : Rect := { r with x := v }
def Rect.setY (r : Rect) (v : ℚ) : Rect := { r with y := v }
def Rect.setCentrePosition (r : Rect) (c : Pt) : Rect :=
  { r with x := c.x - r.w / 2, y := c.y - r.h / 2 }

/-- Containment: `inner` lies entirely within `outer` (per-edge comparison). -/
def Rect.containedIn (inner outer : Rect) : Prop :=
  outer.left ≤ inner.left ∧ inner.right ≤ outer.right ∧
  outer.top ≤ inner.top ∧ inner.bottom ≤ outer.bottom

instance (r R : Rect) : Decidable (Rect.containedIn r R) := by
  unfold Rect.containedIn; infer_instance

/-- Boolean containment test used by the quad-tree descent. -/
def Rect.containsRect (outer inner : Rect) : Bool :=
  decide (inner.containedIn outer)

/-- The `RenderPerspective` enum from the header. -/
inductive RenderPerspective where
  | OBLIQUE
  | ISOMETRIC
deriving DecidableEq

/-- An actor as the scene graph sees it: position, elevation, the
pending-destroy flag, the collision component's local-space bounding boxes
(`hasCollision` records whether a `CollisionComponent` is attached at all)
and the back-reference to the owning quad-tree cell, kept as a path of
child indices from the root (`none` when untracked).  `id` stands for the
C++ object identity. -/
structure Actor where
  id : Nat
  position : Pt
  elevation : ℚ
  pendingDestroy : Bool
  hasCollision : Bool
  boxes : List Rect
  quadTreeCell : Option (List Nat)
deriving DecidableEq

/-- The world-space bounding box of a local-space collision box `lBox`:
`wBoundingBox.SetCentrePosition(actorPosition + lBoundingBox.GetPosition())`
from `SceneGraph::ResolveCollisions`. -/
def Actor.worldBox (a : Actor) (lBox : Rect) : Rect :=
  lBox.setCentrePosition (Pt.add a.position lBox.pos)

/-- Modelled from the spec: the `QuadTreeCell` class (its source is not under
src/; §3/§4.1).  A cell owns a bounding region and the actor references held
directly at it, and has either no children or exactly four children. -/
inductive QuadTreeCell where
  | leaf (region : Rect) (held : List Nat)
  | node (region : Rect) (held : List Nat) (c0 c1 c2 c3 : QuadTreeCell)
deriving DecidableEq

namespace QuadTreeCell

/-- The cell's bounding region (`GetBoundingBox`). -/
def getRegion : QuadTreeCell → Rect
  | .leaf r _ => r
  | .node r _ _ _ _ _ => r

/-- The actor references held directly at this cell. -/
def getHeld : QuadTreeCell → List Nat
  | .leaf _ hl => hl
  | .node _ hl _ _ _ _ => hl

/-- Modelled from the spec: `AppendActorList(outList, recurseIntoChildren)`
"gathers actor references held directly at this cell, and, if requested, all
descendants' actors ... this cell first, then children in quadrant order"
(§4.1). -/
def appendActorList : QuadTreeCell → Bool → List Nat
  | .leaf _ hl, _ => hl
  | .node _ hl _ _ _ _, false => hl
  | .node _ hl c0 c1 c2 c3, true =>
      hl ++ c0.appendActorList true ++ c1.appendActorList true ++
        c2.appendActorList true ++ c3.appendActorList true

/-- Follow a child-index path down the tree. -/
def navigate : QuadTreeCell → List Nat → Option QuadTreeCell
  | t, [] => some t
  | .leaf _ _, _ :: _ => none
  | .node _ _ c0 c1 c2 c3, i :: p =>
      if i = 0 then c0.navigate p
      else if i = 1 then c1.navigate p
      else if i = 2 then c2.navigate p
      else if i = 3 then c3.navigate p
      else none

/-- Modelled from the spec: `RemoveActor` resolved through the actor's stored
back-reference — "the owning cell is asked to erase the reference directly"
(§4.1); the erasure happens at the cell the path denotes and reports whether
the reference was present there. -/
def removeActorAt : QuadTreeCell → List Nat → Nat → QuadTreeCell × Bool
  | .leaf r hl, [], aid => (.leaf r (hl.filter (fun x => x != aid)), hl.contains aid)
  | .leaf r hl, _ :: _, _ => (.leaf r hl, false)
  | .node r hl c0 c1 c2 c3, [], aid =>
      (.node r (hl.filter (fun x => x != aid)) c0 c1 c2 c3, hl.contains aid)
  | .node r hl c0 c1 c2 c3, i :: p, aid =>
      if i = 0 then
        let q := c0.removeActorAt p aid; (.node r hl q.1 c1 c2 c3, q.2)
      else if i = 1 then
        let q := c1.removeActorAt p aid; (.node r hl c0 q.1 c2 c3, q.2)
      else if i = 2 then
        let q := c2.removeActorAt p aid; (.node r hl c0 c1 q.1 c3, q.2)
      else if i = 3 then
        let q := c3.removeActorAt p aid; (.node r hl c0 c1 c2 q.1, q.2)
      else (.node r hl c0 c1 c2 c3, false)

/-- Modelled from the spec: `InsertActor` — "determines whether the actor's
position places it wholly inside one child quadrant (only valid once children
exist); if so, recurse into that child; otherwise store the reference at this
cell" (§4.1).  Returns the updated tree and the path of the cell that now
holds the actor (the value stored into the actor's back-reference).  The
one-shot subdivision step of §4.1 is not modelled: no claim verified here
depends on subdivision, and every concrete scene below stays under the
occupancy threshold. -/
def insertActor : QuadTreeCell → Rect → Nat → QuadTreeCell × List Nat
  | .leaf r hl, _, aid => (.leaf r (hl ++ [aid]), [])
  | .node r hl c0 c1 c2 c3, ext, aid =>
      if Rect.containsRect c0.getRegion ext then
        let q := c0.insertActor ext aid; (.node r hl q.1 c1 c2 c3, 0 :: q.2)
      else if Rect.containsRect c1.getRegion ext then
        let q := c1.insertActor ext aid; (.node r hl c0 q.1 c2 c3, 1 :: q.2)
      else if Rect.containsRect c2.getRegion ext then
        let q := c2.insertActor ext aid; (.node r hl c0 c1 q.1 c3, 2 :: q.2)
      else if Rect.containsRect c3.getRegion ext then
        let q := c3.insertActor ext aid; (.node r hl c0 c1 c2 q.1, 3 :: q.2)
      else (.node r (hl ++ [aid]) c0 c1 c2 c3, [])

/-- Proof helper: how many times the cell a path denotes holds a given id
(0 when the path is invalid). -/
def navCount (t : QuadTreeCell) (p : List Nat) (aid : Nat) : Nat :=
  match t.navigate p with
  | some c => c.getHeld.count aid
  | none => 0

/-- Proof helper: whether the cell a path denotes holds a given id. -/
def navContains (t : QuadTreeCell) (p : List Nat) (aid : Nat) : Bool :=
  match t.navigate p with
  | some c => c.getHeld.contains aid
  | none => false

end QuadTreeCell

/-- Embeds `static_cast<int>(w / 2.0f)`: float division by two followed by the
truncating (toward zero) cast, as performed in `SceneGraph::SetTileDimensions`
for `m_HalfTileWidth` / `m_HalfTileHeight`. -/
def truncHalf (w : ℤ) : ℤ :=
  if 0 ≤ w then Int.ediv w 2 else -(Int.ediv (-w) 2)

/-- The orchestrator state: the members of class `SceneGraph`.  `nextId` is
a modelling device issuing fresh ids for newly constructed actors (the C++
counterpart is the address of the heap allocation). -/
structure SceneGraph where
  actors : List Actor
  newActors : List Actor
  quadTreeRoot : QuadTreeCell
  isUpdatingActors : Bool
  tileWidth : ℤ
  tileHeight : ℤ
  halfTileWidth : ℤ
  halfTileHeight : ℤ
  zoom : ℚ
  wCameraPosition : Pt
  wCameraElevation : ℚ
  sCameraPosition : Pt
  renderPerspective : RenderPerspective
  nextId : Nat
deriving DecidableEq

namespace SceneGraph

/-- Apply `f` to the actor object with id `aid`, wherever its owning
`unique_ptr` lives (registry or deferred buffer); embeds an in-place
mutation through an `Actor*`. -/
def mapActorById (sg : SceneGraph) (aid : Nat) (f : Actor → Actor) : SceneGraph :=
  { sg with
    actors := sg.actors.map (fun a => if a.id = aid then f a else a),
    newActors := sg.newActors.map (fun a => if a.id = aid then f a else a) }

/-- Embeds `SceneGraph::SetTileDimensions`. -/
def setTileDimensions (sg : SceneGraph) (tileWidth tileHeight : ℤ) : SceneGraph :=
  { sg with
    tileWidth := tileWidth
    tileHeight := tileHeight
    halfTileWidth := truncHalf tileWidth
    halfTileHeight := truncHalf tileHeight }

/-- Embeds `SceneGraph::GetTileDimensions`: `return Point<int>(m_TileHeight, m_TileWidth);`. -/
def getTileDimensions (sg : SceneGraph) : PtI := ⟨sg.tileHeight, sg.tileWidth⟩

/-- Embeds `SceneGraph::SetZoom` (header): assigns `m_Zoom` and nothing else. -/
def setZoom (sg : SceneGraph) (zoom : ℚ) : SceneGraph := { sg with zoom := zoom }

/-- Embeds `SceneGraph::SetRenderPerspective` (header): assigns `m_RenderPerspective`
and nothing else. -/
def setRenderPerspective (sg : SceneGraph) (rp : RenderPerspective) : SceneGraph :=
  { sg with renderPerspective := rp }

/-- Embeds `SceneGraph::ToCartesianCoord`. -/
def toCartesianCoord (sg : SceneGraph) (isometricCoord : Pt) : Pt :=
  match sg.renderPerspective with
  | .OBLIQUE =>
      ⟨isometricCoord.x * (sg.tileWidth : ℚ), isometricCoord.y * (sg.tileHeight : ℚ)⟩
  | .ISOMETRIC =>
      ⟨(isometricCoord.x - isometricCoord.y) * (sg.halfTileWidth : ℚ),
       (isometricCoord.x + isometricCoord.y) * (sg.halfTileHeight : ℚ)⟩

/-- Embeds `SceneGraph::ToIsometricCoord`. -/
def toIsometricCoord (sg : SceneGraph) (cartesianCoord : Pt) : Pt :=
  match sg.renderPerspective with
  | .OBLIQUE =>
      ⟨cartesianCoord.x / (sg.tileWidth : ℚ), cartesianCoord.y / (sg.tileHeight : ℚ)⟩
  | .ISOMETRIC =>
      ⟨cartesianCoord.y / (sg.tileHeight : ℚ) + cartesianCoord.x / (sg.tileWidth : ℚ),
       cartesianCoord.y / (sg.tileHeight : ℚ) - cartesianCoord.x / (sg.tileWidth : ℚ)⟩

/-- Embeds `std::floor` applied to both components, as in `SceneGraph::SetCameraPosition`. -/
def floorPt (p : Pt) : Pt := ⟨(Int.floor p.x : ℤ), (Int.floor p.y : ℤ)⟩

/-- Embeds `SceneGraph::SetCameraPosition`: stores the camera world position and
elevation, then recomputes the cached screen-space camera position as the
floored cartesian projection. -/
def setCameraPosition (sg : SceneGraph) (wCameraPosition : Pt) (wCameraElevation : ℚ) : SceneGraph :=
  let sg1 := { sg with
    wCameraPosition := wCameraPosition, wCameraElevation := wCameraElevation }
  { sg1 with sCameraPosition := floorPt (sg1.toCartesianCoord wCameraPosition) }

/-- The invariant claimed by the spec (§3): the cached screen-space camera
position equals the floored cartesian projection of the current camera world
position under the current perspective and tile dimensions. -/
def cameraCacheCoherent (sg : SceneGraph) : Prop :=
  sg.sCameraPosition = floorPt (sg.toCartesianCoord sg.wCameraPosition)

instance (sg : SceneGraph) : Decidable sg.cameraCacheCoherent := by
  unfold cameraCacheCoherent; infer_instance

/-- Embeds `SceneGraph::ToWorldPosition`: converts back via `ToIsometricCoord`,
divides by the zoom only under the `m_Zoom != 0.0f` guard, then adds the
camera world position.  `screenCentre` is `m_RendererRef.GetScreenCentrePosition()`,
passed explicitly because the renderer is an external collaborator. -/
def toWorldPosition (sg : SceneGraph) (screenCentre : Pt) (sPosition : Pt) : Pt :=
  let w := sg.toIsometricCoord (Pt.sub sPosition screenCentre)
  let w := if sg.zoom = 0 then w else ⟨w.x / sg.zoom, w.y / sg.zoom⟩
  Pt.add w sg.wCameraPosition

/-- The divisors of the divisions that `SceneGraph::ToWorldPosition` actually
performs whose divisor is derived from the zoom: the division `wPosition /= m_Zoom`
runs only under the `m_Zoom != 0.0f` guard. -/
def toWorldPositionZoomDivisors (sg : SceneGraph) : List ℚ :=
  if sg.zoom = 0 then [] else [sg.zoom]

/-- The divisors of the divisions `SceneGraph::RenderTileMaps` performs whose
divisor is derived from the zoom: `screenCentrePosition.X() / (m_TileWidth * m_Zoom)`
and `screenCentrePosition.Y() / (m_TileHeight * m_Zoom)` are evaluated
unconditionally when computing `cullingBoxExtent`. -/
def renderTileMapsZoomDivisors (sg : SceneGraph) : List ℚ :=
  [(sg.tileWidth : ℚ) * sg.zoom, (sg.tileHeight : ℚ) * sg.zoom]

end SceneGraph

/-- Modelled from the spec: the "position-derived extent" of an actor (§3),
used by the quad-tree descent — the union of the actor's world-space bounding
boxes, or a zero-extent box at the actor's position when it has none. -/
def Actor.extent (a : Actor) : Rect :=
  match a.boxes with
  | [] => ⟨a.position.x, a.position.y, 0, 0⟩
  | b :: bs =>
      bs.foldl
        (fun acc lb =>
          let wb := a.worldBox lb
          let l := min acc.left wb.left
          let t := min acc.top wb.top
          ⟨l, t, max acc.right wb.right - l, max acc.bottom wb.bottom - t⟩)
        (a.worldBox b)

namespace SceneGraph

/-- Embeds `SceneGraph::AddActor`: the actor goes to the deferred buffer when an
update pass is in progress, otherwise to the registry; it is then inserted
into the quad tree, which sets its owning-cell back-reference.  Returns the
non-owning reference (the id). -/
def addActor (sg : SceneGraph) (a : Actor) : SceneGraph × Nat :=
  let sg1 :=
    if sg.isUpdatingActors then { sg with newActors := sg.newActors ++ [a] }
    else { sg with actors := sg.actors ++ [a] }
  let q := sg1.quadTreeRoot.insertActor a.extent a.id
  let sg2 := { sg1 with quadTreeRoot := q.1 }
  (sg2.mapActorById a.id (fun x => { x with quadTreeCell := some q.2 }), a.id)

/-- The behaviour of the external factory on a given declarative resource:
whether `AddComponentsAndInitaliseActor` succeeds, and the collision
component (if any) it attaches.  Stands for the actor XML/JSON resource. -/
structure SpawnSpec where
  initSuccess : Bool
  hasCollision : Bool
  boxes : List Rect
deriving DecidableEq

/-- The actor object `std::make_unique<Actor>(this, position, elevation)`
constructs, with the components the factory attaches. -/
def freshActor (sg : SceneGraph) (res : SpawnSpec) (position : Pt) (elevation : ℚ) : Actor :=
  { id := sg.nextId
    position := position
    elevation := elevation
    pendingDestroy := false
    hasCollision := res.hasCollision
    boxes := res.boxes
    quadTreeCell := none }

/-- Embeds `SceneGraph::SpawnActor(const std::string&, const Point<float>&, float)`
(src/SceneGraph.cpp): constructs the actor, and returns null without adding
anything when the factory fails; otherwise hands the actor to `AddActor`. -/
def spawnActor (sg : SceneGraph) (res : SpawnSpec) (position : Pt) (elevation : ℚ) :
    SceneGraph × Option Nat :=
  if res.initSuccess then
    let q := addActor { sg with nextId := sg.nextId + 1 } (freshActor sg res position elevation)
    (q.1, some q.2)
  else (sg, none)

/-- Embeds `SceneGraph::SpawnActor(std::string)`: delegates to the three-argument
overload with a default-constructed position and elevation `0`. -/
def spawnActorDefault (sg : SceneGraph) (res : SpawnSpec) : SceneGraph × Option Nat :=
  sg.spawnActor res ⟨0, 0⟩ 0

/-- Embeds `SceneGraph::SpawnActor<ActorType>` (header template): constructs the
actor and calls `AddComponentsAndInitaliseActor` but discards its boolean
result, so it always hands the actor to `AddActor` and always returns the
(non-null) reference. -/
def spawnActorTemplate (sg : SceneGraph) (res : SpawnSpec) (position : Pt) (elevation : ℚ) :
    SceneGraph × Nat :=
  addActor { sg with nextId := sg.nextId + 1 } (freshActor sg res position elevation)

/-- Embeds `SceneGraph::RemoveActor(Actor*)`: consults the actor's owning-cell
back-reference; with no owning cell it returns `false` and changes nothing,
otherwise the owning cell erases the reference (and the back-reference is
cleared, so a repeated removal fails). -/
def removeActorRef (sg : SceneGraph) (a : Actor) : SceneGraph × Bool :=
  match a.quadTreeCell with
  | none => (sg, false)
  | some path =>
      let q := sg.quadTreeRoot.removeActorAt path a.id
      ({ sg with quadTreeRoot := q.1 }.mapActorById a.id
          (fun x => { x with quadTreeCell := none }), q.2)

/-- Embeds `SceneGraph::DestroyPendingActors`: `std::partition` reorders the registry
so the actors satisfying `IsPendingDestroy` come first and returns the
iterator to the first element of the second group; the code then applies
`RemoveActor` to the range `[destroyBegin, end)` — that second group, the
actors *not* pending destroy — and erases exactly that range from the
registry.  (`std::partition` does not specify the order inside each group;
the embedding keeps the stable order.) -/
def destroyPendingActors (sg : SceneGraph) : SceneGraph :=
  let pending := sg.actors.filter (fun a => a.pendingDestroy)
  let second := sg.actors.filter (fun a => !a.pendingDestroy)
  let sg1 := second.foldl (fun s a => (s.removeActorRef a).1) sg
  { sg1 with actors := pending }

/-- What one actor's `Actor::Update` call does to the scene, as far as the
scene graph is concerned: it may mark its own actor pending-destroy and may
request spawns through `SceneGraph::SpawnActor`.  The actor/component model
is an external collaborator, so its update logic is a parameter. -/
structure ActorAction where
  markDestroy : Bool
  spawns : List (SpawnSpec × Pt × ℚ)

/-- Run one actor's update logic against the scene. -/
def applyActorLogic (logic : Nat → ℚ → ActorAction) (deltaTime : ℚ)
    (sg : SceneGraph) (aid : Nat) : SceneGraph :=
  let act := logic aid deltaTime
  let sg1 :=
    if act.markDestroy then
      sg.mapActorById aid (fun a => { a with pendingDestroy := true })
    else sg
  act.spawns.foldl (fun s sp => (s.spawnActor sp.1 sp.2.1 sp.2.2).1) sg1

/-- Embeds `SceneGraph::Update`: raises the update-in-progress flag, runs every
registry actor's update logic once in registry order (actors spawned during
the pass sit in `m_NewActors` and are not iterated), splices the deferred
buffer onto the registry, calls `DestroyPendingActors`, and clears the
flag. -/
def update (logic : Nat → ℚ → ActorAction) (sg : SceneGraph) (deltaTime : ℚ) : SceneGraph :=
  let sg1 := { sg with isUpdatingActors := true }
  let sg2 := (sg1.actors.map (fun a => a.id)).foldl (applyActorLogic logic deltaTime) sg1
  let sg3 := { sg2 with actors := sg2.actors ++ sg2.newActors, newActors := [] }
  let sg4 := sg3.destroyPendingActors
  { sg4 with isUpdatingActors := false }

end SceneGraph

/-- The four sequential edge clamps `SceneGraph::ResolveCollisions` applies to
one world-space bounding box against the root bounding box, in source order
(left, right, top, bottom); each test reads the box as already modified by
the previous clamp. -/
def clampBoxOnce (rootBB r0 : Rect) : Rect :=
  let r1 := if r0.left < rootBB.left then r0.setX rootBB.left else r0
  let r2 := if r1.right > rootBB.right then r1.setX (rootBB.right - r1.w) else r1
  let r3 := if r2.top < rootBB.top then r2.setY rootBB.top else r2
  if r3.bottom > rootBB.bottom then r3.setY (rootBB.bottom - r3.h) else r3

/-- The per-actor body of the clamping loop in `SceneGraph::ResolveCollisions`:
when the actor has a collision component, each of its local boxes in turn is
lifted to world space from the actor's *current* position, clamped, and the
actor's position is reset from the clamped box's centre. -/
def clampActorStep (rootBB : Rect) (a0 : Actor) : Actor :=
  if a0.hasCollision then
    a0.boxes.foldl
      (fun a lBox =>
        let wBox := clampBoxOnce rootBB (a.worldBox lBox)
        { a with position := Pt.sub wBox.centre lBox.pos })
      a0
  else a0

namespace SceneGraph

/-- The world-boundary clamping pass of `SceneGraph::ResolveCollisions`:
the actor list comes from `m_QuadTreeRoot.AppendActorList(actors, false)` —
the actors held *directly at the root cell* only — and each listed actor is
clamped against the root bounding box.  The source iterates the gathered
pointer list and mutates each actor in place; the embedding applies the same
per-actor mutation across the owning containers, which is the same map as
long as the gathered list holds no duplicate references (each actor is held
at exactly one cell). -/
def clampActorsToBounds (sg : SceneGraph) : SceneGraph :=
  let rootHeld := sg.quadTreeRoot.appendActorList false
  let rootBB := sg.quadTreeRoot.getRegion
  { sg with
    actors := sg.actors.map
      (fun a => if a.id ∈ rootHeld then clampActorStep rootBB a else a),
    newActors := sg.newActors.map
      (fun a => if a.id ∈ rootHeld then clampActorStep rootBB a else a) }

/-- Embeds `SceneGraph::ResolveCollisions`: the clamping pass, then
`m_QuadTreeRoot.ResolveCollisions()`.  The quad-tree pairwise separation is
repository code not under src/ (§4.1: pairwise overlap separation only), so
it is abstracted as the parameter `treeResolve`; on a scene with at most one
actor the spec's pairwise pass has no pair to separate, so `id` instantiates
it there. -/
def resolveCollisions (treeResolve : SceneGraph → SceneGraph) (sg : SceneGraph) : SceneGraph :=
  treeResolve sg.clampActorsToBounds

/-- Embeds `SceneGraph::Raycast(origin, end, actorsToIgnore)`: delegates to
`m_QuadTreeRoot.Raycast`.  The quad-tree query is repository code not under
src/, abstracted as the `cellRaycast` parameter. -/
def raycastSeg (cellRaycast : QuadTreeCell → Pt → Pt → List Nat → List Nat)
    (sg : SceneGraph) (origin endPoint : Pt) (actorsToIgnore : List Nat) : List Nat :=
  cellRaycast sg.quadTreeRoot origin endPoint actorsToIgnore

/-- Embeds `SceneGraph::Raycast(origin, direction, distance, actorsToIgnore)`:
calls the segment overload with end point `origin + (direction * distance)`. -/
def raycastDir (cellRaycast : QuadTreeCell → Pt → Pt → List Nat → List Nat)
    (sg : SceneGraph) (origin direction : Pt) (distance : ℚ)
    (actorsToIgnore : List Nat) : List Nat :=
  sg.raycastSeg cellRaycast origin (Pt.add origin (Pt.mulScalar direction distance)) actorsToIgnore

/-- Embeds `SceneGraph::RaycastFirstHit(origin, end, actorsToIgnore)`: delegates to
`m_QuadTreeRoot.RaycastFirstHit`, abstracted as `cellFirstHit`. -/
def raycastFirstHitSeg (cellFirstHit : QuadTreeCell → Pt → Pt → List Nat → Option Nat)
    (sg : SceneGraph) (origin endPoint : Pt) (actorsToIgnore : List Nat) : Option Nat :=
  cellFirstHit sg.quadTreeRoot origin endPoint actorsToIgnore

/-- Embeds `SceneGraph::RaycastFirstHit(origin, direction, distance, actorsToIgnore)`:
calls the segment overload with end point `origin + (direction * distance)`. -/
def raycastFirstHitDir (cellFirstHit : QuadTreeCell → Pt → Pt → List Nat → Option Nat)
    (sg : SceneGraph) (origin direction : Pt) (distance : ℚ)
    (actorsToIgnore : List Nat) : Option Nat :=
  sg.raycastFirstHitSeg cellFirstHit origin
    (Pt.add origin (Pt.mulScalar direction distance)) actorsToIgnore

/-- Embeds `SceneGraph::PickActor`: converts the screen position to world space and
casts a zero-length ray there with an empty ignore list, directly on the
root cell. -/
def pickActor (cellFirstHit : QuadTreeCell → Pt → Pt → List Nat → Option Nat)
    (sg : SceneGraph) (screenCentre : Pt) (sPosition : Pt) : Option Nat :=
  let wPosition := sg.toWorldPosition screenCentre sPosition
  cellFirstHit sg.quadTreeRoot wPosition wPosition []

end SceneGraph

/-! ### Concrete scenes used by the witnesses, counterexamples and
bug evaluations below. -/

/-- A quiescent orchestrator state over a given root cell and perspective:
empty registry and buffer, 32×32 tiles, zoom 1, camera at the origin. -/
def baseScene (root : QuadTreeCell) (rp : RenderPerspective) : SceneGraph :=
  { actors := []
    newActors := []
    quadTreeRoot := root
    isUpdatingActors := false
    tileWidth := 32
    tileHeight := 32
    halfTileWidth := 16
    halfTileHeight := 16
    zoom := 1
    wCameraPosition := ⟨0, 0⟩
    wCameraElevation := 0
    sCameraPosition := ⟨0, 0⟩
    renderPerspective := rp
    nextId := 0 }

/-- An actor with no collision component, indexed at the root cell. -/
def plainActor (aid : Nat) (pos : Pt) : Actor :=
  { id := aid
    position := pos
    elevation := 0
    pendingDestroy := false
    hasCollision := false
    boxes := []
    quadTreeCell := some [] }

/-- Two live actors indexed at the root; actor 1 will mark itself
pending-destroy during the update pass. -/
def sgC1 : SceneGraph :=
  { baseScene (.leaf ⟨0, 0, 10, 10⟩ [1, 2]) .OBLIQUE with
    actors := [plainActor 1 ⟨1, 1⟩, plainActor 2 ⟨2, 2⟩], nextId := 3 }

/-- Update logic: actor 1 marks itself pending-destroy, actor 2 does nothing. -/
def logicC1 : Nat → ℚ → SceneGraph.ActorAction :=
  fun aid _ => if aid = 1 then ⟨true, []⟩ else ⟨false, []⟩

/-- A resource on which the factory succeeds and attaches no components. -/
def spawnSpecOK : SceneGraph.SpawnSpec := ⟨true, false, []⟩

/-- One live actor indexed at the root; it will spawn a new actor during the
update pass. -/
def sgC7 : SceneGraph :=
  { baseScene (.leaf ⟨0, 0, 10, 10⟩ [1]) .OBLIQUE with
    actors := [plainActor 1 ⟨1, 1⟩], nextId := 2 }

/-- Update logic: actor 1 spawns one actor (the factory succeeds). -/
def logicC7 : Nat → ℚ → SceneGraph.ActorAction :=
  fun aid _ => if aid = 1 then ⟨false, [(spawnSpecOK, ⟨2, 2⟩, 0)]⟩ else ⟨false, []⟩

/-- A resource on which `AddComponentsAndInitaliseActor` fails. -/
def resFail : SceneGraph.SpawnSpec := ⟨false, false, []⟩

/-- An empty scene for the spawn-failure claims. -/
def sgC4 : SceneGraph := baseScene (.leaf ⟨0, 0, 10, 10⟩ []) .OBLIQUE

/-- A scene whose zoom factor is zero. -/
def sgC6 : SceneGraph := { baseScene (.leaf ⟨0, 0, 10, 10⟩ []) .OBLIQUE with zoom := 0 }

/-- Oblique scene with 2×2 tiles (so the camera's cartesian projection is
easy to read off). -/
def sgC5base : SceneGraph :=
  (baseScene (.leaf ⟨0, 0, 10, 10⟩ []) .OBLIQUE).setTileDimensions 2 2

/-- The state `sgC5base` after `SetCameraPosition((1,1), 0)`: the cache is coherent. -/
def sgC5a : SceneGraph := sgC5base.setCameraPosition ⟨1, 1⟩ 0

/-- The state `sgC5a` after `SetTileDimensions(4, 4)`: nothing recomputes the cache. -/
def sgC5b : SceneGraph := sgC5a.setTileDimensions 4 4

/-- An isometric scene (tile dimensions still to be configured). -/
def sgIso : SceneGraph := baseScene (.leaf ⟨0, 0, 10, 10⟩ []) .ISOMETRIC

/-- The isometric scene configured with 1×1 tiles: the truncated half-tile
dimensions are both 0. -/
def sgIso11 : SceneGraph := sgIso.setTileDimensions 1 1

/-- An actor indexed at the root cell of `sgC8`. -/
def aC8 : Actor := plainActor 7 ⟨3, 3⟩

/-- An actor with no owning cell (never inserted, or already removed). -/
def aC8none : Actor := { plainActor 9 ⟨4, 4⟩ with quadTreeCell := none }

/-- A scene whose root cell holds exactly actor 7. -/
def sgC8 : SceneGraph :=
  { baseScene (.leaf ⟨0, 0, 10, 10⟩ [7]) .OBLIQUE with actors := [aC8], nextId := 8 }

/-- A unit collision box with zero offset from the actor position. -/
def boxUnit : Rect := ⟨0, 0, 1, 1⟩

/-- An actor far outside the world bounds, held at a *child* cell of the
quad tree (per §3 an actor whose extent fits a child quadrant is stored
there). -/
def actorFar : Actor :=
  { id := 1
    position := ⟨100, 100⟩
    elevation := 0
    pendingDestroy := false
    hasCollision := true
    boxes := [boxUnit]
    quadTreeCell := some [0] }

/-- A subdivided root: four quadrant children, with actor 1 held at the
first child and nothing held directly at the root. -/
def rootC2 : QuadTreeCell :=
  .node ⟨0, 0, 10, 10⟩ []
    (.leaf ⟨0, 0, 5, 5⟩ [1]) (.leaf ⟨5, 0, 5, 5⟩ [])
    (.leaf ⟨0, 5, 5, 5⟩ []) (.leaf ⟨5, 5, 5, 5⟩ [])

/-- The one-actor scene for the containment counterexample. -/
def sgC2ce : SceneGraph :=
  { baseScene rootC2 .OBLIQUE with actors := [actorFar], nextId := 2 }

/-- A 2×2 collision box with zero offset. -/
def boxTwo : Rect := ⟨0, 0, 2, 2⟩

/-- An out-of-bounds actor held directly at the root cell. -/
def actorEdge : Actor :=
  { id := 5
    position := ⟨20, -3⟩
    elevation := 0
    pendingDestroy := false
    hasCollision := true
    boxes := [boxTwo]
    quadTreeCell := some [] }

/-- The scene for the clamping witness: root leaf holding actor 5. -/
def sgC2w : SceneGraph :=
  { baseScene (.leaf ⟨0, 0, 10, 10⟩ [5]) .OBLIQUE with actors := [actorEdge], nextId := 6 }

/-! ### Theorems -/

/-- C9: for every tile width `w` and height `h`, after `SetTileDimensions(w, h)`
the accessor `GetTileDimensions` returns the point `(h, w)` — X is the tile
height and Y the tile width, the reverse of the order in which they were
set. -/
theorem getTileDimensions_swapped (sg : SceneGraph) (w h : ℤ) :
    (sg.setTileDimensions w h).getTileDimensions = ⟨h, w⟩ := rfl

/-- C10: the direction/distance overloads of `Raycast` and `RaycastFirstHit`
are exactly the corresponding segment overloads at end point
`origin + direction * distance`, and `PickActor(s)` is exactly
`RaycastFirstHit(w, w, {})` at the world position `w` of the screen point —
a zero-length segment with an empty ignore list.  (The quad-tree-level query
is the abstracted `cellRaycast`/`cellFirstHit`; all overloads call it on
`m_QuadTreeRoot`, so the delegation equalities hold for every such query.) -/
theorem raycast_overload_delegation
    (cellRaycast : QuadTreeCell → Pt → Pt → List Nat → List Nat)
    (cellFirstHit : QuadTreeCell → Pt → Pt → List Nat → Option Nat)
    (sg : SceneGraph) (screenCentre origin direction : Pt) (distance : ℚ)
    (actorsToIgnore : List Nat) (sPosition : Pt) :
    sg.raycastDir cellRaycast origin direction distance actorsToIgnore
      = sg.raycastSeg cellRaycast origin
          (Pt.add origin (Pt.mulScalar direction distance)) actorsToIgnore ∧
    sg.raycastFirstHitDir cellFirstHit origin direction distance actorsToIgnore
      = sg.raycastFirstHitSeg cellFirstHit origin
          (Pt.add origin (Pt.mulScalar direction distance)) actorsToIgnore ∧
    sg.pickActor cellFirstHit screenCentre sPosition
      = sg.raycastFirstHitSeg cellFirstHit
          (sg.toWorldPosition screenCentre sPosition)
          (sg.toWorldPosition screenCentre sPosition) [] :=
  ⟨rfl, rfl, rfl⟩

/-- C6 counterexample: with the zoom factor zero, `RenderTileMaps` still
evaluates `screenCentrePosition.X() / (m_TileWidth * m_Zoom)` (and the Y
analogue), whose divisor is `0` — the culling-extent division is not
guarded, refuting "every division whose divisor is derived from the zoom is
guarded". -/
theorem renderTileMaps_unguarded_zoom_division :
    sgC6.zoom = 0 ∧ (0 : ℚ) ∈ sgC6.renderTileMapsZoomDivisors := by
  constructor
  · rfl
  · simp [sgC6, baseScene, SceneGraph.renderTileMapsZoomDivisors]

/-- C6 amended: the screen-to-world inverse (`ToWorldPosition`) never divides
by zero — its zoom division sits under the `m_Zoom != 0.0f` guard — but the
tile-map culling-extent divisions of `RenderTileMaps` are unguarded and have
divisor zero whenever the zoom is zero. -/
theorem zoom_division_guarding (sg : SceneGraph) :
    ((0 : ℚ) ∉ sg.toWorldPositionZoomDivisors) ∧
    (sg.zoom = 0 → (0 : ℚ) ∈ sg.renderTileMapsZoomDivisors) := by
  constructor
  · by_cases h : sg.zoom = 0
    · simp [SceneGraph.toWorldPositionZoomDivisors, h]
    · simp only [SceneGraph.toWorldPositionZoomDivisors, if_neg h, List.mem_singleton]
      exact fun hc => h hc.symm
  · intro hz
    simp [SceneGraph.renderTileMapsZoomDivisors, hz]

/-- C6 witness: the guarding statement evaluated at the zero-zoom scene. -/
theorem zoom_division_guarding_witness :
    ((0 : ℚ) ∉ sgC6.toWorldPositionZoomDivisors) ∧
    ((0 : ℚ) ∈ sgC6.renderTileMapsZoomDivisors) :=
  ⟨(zoom_division_guarding sgC6).1, (zoom_division_guarding sgC6).2 rfl⟩

/-- C4 counterexample: the template entry point `SpawnActor<ActorType>`
discards the factory's failure result — spawning a resource on which the
factory fails still adds the actor to the registry and the spatial index and
returns a (non-absent) reference, refuting the claim for "any SpawnActor
entry point". -/
theorem spawnTemplate_adds_despite_failure :
    resFail.initSuccess = false ∧
    ((sgC4.spawnActorTemplate resFail ⟨1, 1⟩ 0).1.actors.map (fun a => a.id) = [0]) ∧
    ((sgC4.spawnActorTemplate resFail ⟨1, 1⟩ 0).1.quadTreeRoot.appendActorList true = [0]) ∧
    ((sgC4.spawnActorTemplate resFail ⟨1, 1⟩ 0).2 = 0) := by decide

/-- C4 amended: for the two non-template `SpawnActor` overloads (the ones in
src/SceneGraph.cpp), a factory construction/initialization failure returns an
absent actor reference and leaves the whole state unchanged — nothing is
added to the registry, the deferred buffer, or the spatial index.  The
header's template overload `SpawnActor<ActorType>` ignores the failure and
adds the actor regardless. -/
theorem spawnActor_failure_no_effect (sg : SceneGraph) (res : SceneGraph.SpawnSpec)
    (p : Pt) (e : ℚ) (hfail : res.initSuccess = false) :
    sg.spawnActor res p e = (sg, none) ∧ sg.spawnActorDefault res = (sg, none) := by
  unfold SceneGraph.spawnActorDefault SceneGraph.spawnActor
  simp [hfail]

/-- C4 witness: the failing resource on the empty scene. -/
theorem spawnActor_failure_no_effect_witness :
    sgC4.spawnActor resFail ⟨1, 1⟩ 0 = (sgC4, none) ∧
    sgC4.spawnActorDefault resFail = (sgC4, none) :=
  spawnActor_failure_no_effect sgC4 resFail ⟨1, 1⟩ 0 rfl

/-- C1 (bug evaluation): in `sgC1`, actor 1 marks itself pending-destroy
during `Update` and actor 2 does not.  Because `DestroyPendingActors`
partitions with the `IsPendingDestroy` predicate (placing pending actors
*first*) and then removes and erases the range past the partition point, it
is actor 2 — the survivor — that is removed from the registry and the index,
while the pending actor 1 remains in both, contradicting the code's own
comments and the claim. -/
theorem update_flush_destroys_wrong_actors :
    ((SceneGraph.update logicC1 sgC1 1).actors.map (fun a => a.id) = [1]) ∧
    ((SceneGraph.update logicC1 sgC1 1).actors.map (fun a => a.pendingDestroy) = [true]) ∧
    ((SceneGraph.update logicC1 sgC1 1).quadTreeRoot.appendActorList true = [1]) := by decide

/-- C7 (bug evaluation): in `sgC7`, actor 1 spawns a new actor during the
update pass (only actor 1's logic runs — the registry iterated by the pass is
`[1]`).  The spawned actor is buffered and spliced onto the registry after
the pass, but the inverted partition in `DestroyPendingActors` then removes
every non-pending actor: immediately after `Update` returns, the spawned
actor (and the spawner) are gone from both the registry and the index,
contradicting the claim's presence requirement. -/
theorem update_spawned_actor_erased :
    (sgC7.actors.map (fun a => a.id) = [1]) ∧
    ((SceneGraph.update logicC7 sgC7 1).actors = []) ∧
    ((SceneGraph.update logicC7 sgC7 1).quadTreeRoot.appendActorList true = []) := by decide

/-- Halving with truncation toward zero is exact on even integers. -/
theorem truncHalf_two_mul (a : ℤ) : truncHalf (2 * a) = a := by
  unfold truncHalf
  by_cases h : 0 ≤ 2 * a
  · rw [if_pos h]
    exact Int.mul_ediv_cancel_left a (by norm_num)
  · rw [if_neg h]
    have h2 : -(2 * a) = 2 * (-a) := by ring
    have h3 : Int.ediv (2 * (-a)) 2 = -a := Int.mul_ediv_cancel_left (-a) (by norm_num)
    rw [h2, h3]
    ring

/-- C3 counterexample: with tile dimensions 1×1 (legal inputs to
`SetTileDimensions`) under the isometric perspective, the truncated half-tile
dimensions are both 0, so the cartesian transform collapses every point to
the origin: the round trip sends `(1, 0)` to `(0, 0)` — an error of a full
unit, not a floating-point epsilon. -/
theorem isometric_roundTrip_fails_for_odd_tiles :
    sgIso11.toIsometricCoord (sgIso11.toCartesianCoord ⟨1, 0⟩) = ⟨0, 0⟩ ∧
    sgIso11.toIsometricCoord (sgIso11.toCartesianCoord ⟨1, 0⟩) ≠ ⟨1, 0⟩ := by
  have hcart : sgIso11.toIsometricCoord (sgIso11.toCartesianCoord ⟨1, 0⟩) = ⟨0, 0⟩ := by
    show sgIso11.toIsometricCoord (sgIso11.toCartesianCoord ⟨1, 0⟩) = ⟨0, 0⟩
    norm_num [sgIso11, sgIso, baseScene, SceneGraph.setTileDimensions,
      SceneGraph.toCartesianCoord, SceneGraph.toIsometricCoord, truncHalf]
  refine ⟨hcart, ?_⟩
  rw [hcart]
  intro hcontra
  have : (0 : ℚ) = 1 := congrArg Pt.x hcontra
  norm_num at this

/-- C3 amended: the cartesian/isometric round trip is the exact identity on
every point for every *nonzero* tile width and height under the oblique
perspective, and for every *even nonzero* tile width and height under the
isometric perspective (the truncated integer half-tile dimensions make odd
tile sizes inexact, and zero tile sizes divide by zero in the inverse). -/
theorem roundTrip_exact_for_even_tiles (sg : SceneGraph) (w h : ℤ) (p : Pt)
    (hw : w ≠ 0) (hh : h ≠ 0)
    (hcase : sg.renderPerspective = .OBLIQUE ∨ (w % 2 = 0 ∧ h % 2 = 0)) :
    (sg.setTileDimensions w h).toIsometricCoord
      ((sg.setTileDimensions w h).toCartesianCoord p) = p := by
  obtain ⟨px, py⟩ := p
  have hwq : (w : ℚ) ≠ 0 := Int.cast_ne_zero.mpr hw
  have hhq : (h : ℚ) ≠ 0 := Int.cast_ne_zero.mpr hh
  cases hrp : sg.renderPerspective with
  | OBLIQUE =>
      simp only [SceneGraph.setTileDimensions, SceneGraph.toCartesianCoord,
        SceneGraph.toIsometricCoord, hrp]
      congr 1
      · field_simp
      · field_simp
  | ISOMETRIC =>
      rcases hcase with hobl | ⟨hw2, hh2⟩
      · rw [hrp] at hobl; cases hobl
      · obtain ⟨a, ha⟩ : ∃ a, w = 2 * a := ⟨w / 2, by omega⟩
        obtain ⟨b, hb⟩ : ∃ b, h = 2 * b := ⟨h / 2, by omega⟩
        subst ha hb
        have ha0 : a ≠ 0 := by omega
        have hb0 : b ≠ 0 := by omega
        have haq : (a : ℚ) ≠ 0 := Int.cast_ne_zero.mpr ha0
        have hbq : (b : ℚ) ≠ 0 := Int.cast_ne_zero.mpr hb0
        simp only [SceneGraph.setTileDimensions, SceneGraph.toCartesianCoord,
          SceneGraph.toIsometricCoord, hrp, truncHalf_two_mul]
        push_cast
        congr 1
        · field_simp
          ring
        · field_simp
          ring

/-- C3 witness: the amended round trip evaluated on the isometric scene with
4×2 tiles at the point `(3, 5)`. -/
theorem roundTrip_exact_for_even_tiles_witness :
    (sgIso.setTileDimensions 4 2).toIsometricCoord
      ((sgIso.setTileDimensions 4 2).toCartesianCoord ⟨3, 5⟩) = ⟨3, 5⟩ :=
  roundTrip_exact_for_even_tiles sgIso 4 2 ⟨3, 5⟩ (by decide) (by decide)
    (Or.inr ⟨by decide, by decide⟩)

/-- C5 counterexample: after `SetCameraPosition((1,1), 0)` on the oblique 2×2
scene the cached screen-space camera position is coherent, but the subsequent
`SetTileDimensions(4, 4)` changes the projection without recomputing the
cache (`SetTileDimensions` assigns the four tile fields and nothing else), so
the invariant is broken — refuting "after any operation that changes ...
tile dimensions". -/
theorem cameraCache_stale_after_setTileDimensions :
    sgC5a.cameraCacheCoherent ∧ ¬ sgC5b.cameraCacheCoherent := by
  constructor
  · show sgC5a.sCameraPosition = _
    norm_num [sgC5a, sgC5base, baseScene, SceneGraph.setCameraPosition,
      SceneGraph.setTileDimensions, SceneGraph.toCartesianCoord,
      SceneGraph.floorPt, truncHalf]
  · show ¬ sgC5b.sCameraPosition = _
    norm_num [sgC5b, sgC5a, sgC5base, baseScene, SceneGraph.setCameraPosition,
      SceneGraph.setTileDimensions, SceneGraph.toCartesianCoord,
      SceneGraph.floorPt, truncHalf, Pt.mk.injEq]

/-- C5 amended: the cached screen-space camera position is recomputed — and
therefore coherent — after every `SetCameraPosition` call, and zoom changes
preserve coherence because the cached cartesian projection does not depend on
the zoom; but no operation that changes the perspective or the tile
dimensions recomputes it (see the counterexample). -/
theorem cameraCache_recompute_rules :
    (∀ (sg : SceneGraph) (p : Pt) (e : ℚ),
        (sg.setCameraPosition p e).cameraCacheCoherent) ∧
    (∀ (sg : SceneGraph) (z : ℚ),
        sg.cameraCacheCoherent → (sg.setZoom z).cameraCacheCoherent) := by
  constructor
  · intro sg p e
    show _ = _
    simp only [SceneGraph.setCameraPosition, SceneGraph.cameraCacheCoherent,
      SceneGraph.toCartesianCoord]
  · intro sg z hcoh
    show _ = _
    simpa only [SceneGraph.setZoom, SceneGraph.cameraCacheCoherent,
      SceneGraph.toCartesianCoord] using hcoh

/-- C5 witness: the recompute rules evaluated on the oblique 2×2 scene. -/
theorem cameraCache_recompute_rules_witness :
    (sgC5base.setCameraPosition ⟨1, 1⟩ 0).cameraCacheCoherent ∧
    (sgC5a.setZoom 2).cameraCacheCoherent :=
  ⟨cameraCache_recompute_rules.1 sgC5base ⟨1, 1⟩ 0,
   cameraCache_recompute_rules.2 sgC5a 2 (cameraCache_recompute_rules.1 sgC5base ⟨1, 1⟩ 0)⟩

/-- Filtering an id out of a list leaves no occurrence of it. -/
theorem count_filter_ne_self (l : List Nat) (aid : Nat) :
    (l.filter (fun x => x != aid)).count aid = 0 := by
  rw [List.count_eq_zero]
  intro hmem
  have h := (List.mem_filter.mp hmem).2
  simp at h

/-- Removal: `removeActorAt` erases exactly the occurrences of the id held at the cell
the path denotes: the full-tree occurrence count drops by that cell's
count. -/
theorem removeActorAt_count (t : QuadTreeCell) (p : List Nat) (aid : Nat) :
    ((t.removeActorAt p aid).1.appendActorList true).count aid
      + t.navCount p aid
      = (t.appendActorList true).count aid := by
  induction t generalizing p with
  | leaf r hl =>
      cases p with
      | nil =>
          simp [QuadTreeCell.removeActorAt, QuadTreeCell.navCount, QuadTreeCell.navigate,
            QuadTreeCell.appendActorList, QuadTreeCell.getHeld, count_filter_ne_self]
      | cons i rest =>
          simp [QuadTreeCell.removeActorAt, QuadTreeCell.navCount, QuadTreeCell.navigate,
            QuadTreeCell.appendActorList]
  | node r hl c0 c1 c2 c3 ih0 ih1 ih2 ih3 =>
      cases p with
      | nil =>
          simp [QuadTreeCell.removeActorAt, QuadTreeCell.navCount, QuadTreeCell.navigate,
            QuadTreeCell.appendActorList, QuadTreeCell.getHeld,
            List.count_append, count_filter_ne_self]
          omega
      | cons i rest =>
          by_cases h0 : i = 0
          · subst h0
            have ih := ih0 rest
            simp [QuadTreeCell.removeActorAt, QuadTreeCell.navCount, QuadTreeCell.navigate,
              QuadTreeCell.appendActorList, List.count_append] at ih ⊢
            omega
          · by_cases h1 : i = 1
            · subst h1
              have ih := ih1 rest
              simp [QuadTreeCell.removeActorAt, QuadTreeCell.navCount, QuadTreeCell.navigate,
                QuadTreeCell.appendActorList, List.count_append] at ih ⊢
              omega
            · by_cases h2 : i = 2
              · subst h2
                have ih := ih2 rest
                simp [QuadTreeCell.removeActorAt, QuadTreeCell.navCount, QuadTreeCell.navigate,
                  QuadTreeCell.appendActorList, List.count_append] at ih ⊢
                omega
              · by_cases h3 : i = 3
                · subst h3
                  have ih := ih3 rest
                  simp [QuadTreeCell.removeActorAt, QuadTreeCell.navCount, QuadTreeCell.navigate,
                    QuadTreeCell.appendActorList, List.count_append] at ih ⊢
                  omega
                · simp [QuadTreeCell.removeActorAt, QuadTreeCell.navCount,
                    QuadTreeCell.navigate, QuadTreeCell.appendActorList,
                    List.count_append, h0, h1, h2, h3]

/-- The success flag of `removeActorAt` is exactly "the cell the path denotes
holds the id". -/
theorem removeActorAt_flag (t : QuadTreeCell) (p : List Nat) (aid : Nat) :
    (t.removeActorAt p aid).2 = t.navContains p aid := by
  induction t generalizing p with
  | leaf r hl =>
      cases p with
      | nil =>
          simp [QuadTreeCell.removeActorAt, QuadTreeCell.navContains,
            QuadTreeCell.navigate, QuadTreeCell.getHeld]
      | cons i rest =>
          simp [QuadTreeCell.removeActorAt, QuadTreeCell.navContains,
            QuadTreeCell.navigate]
  | node r hl c0 c1 c2 c3 ih0 ih1 ih2 ih3 =>
      cases p with
      | nil =>
          simp [QuadTreeCell.removeActorAt, QuadTreeCell.navContains,
            QuadTreeCell.navigate, QuadTreeCell.getHeld]
      | cons i rest =>
          by_cases h0 : i = 0
          · subst h0
            simpa [QuadTreeCell.removeActorAt, QuadTreeCell.navContains,
              QuadTreeCell.navigate] using ih0 rest
          · by_cases h1 : i = 1
            · subst h1
              simpa [QuadTreeCell.removeActorAt, QuadTreeCell.navContains,
                QuadTreeCell.navigate] using ih1 rest
            · by_cases h2 : i = 2
              · subst h2
                simpa [QuadTreeCell.removeActorAt, QuadTreeCell.navContains,
                  QuadTreeCell.navigate] using ih2 rest
              · by_cases h3 : i = 3
                · subst h3
                  simpa [QuadTreeCell.removeActorAt, QuadTreeCell.navContains,
                    QuadTreeCell.navigate] using ih3 rest
                · simp [QuadTreeCell.removeActorAt, QuadTreeCell.navContains,
                    QuadTreeCell.navigate, h0, h1, h2, h3]

/-- C8: `RemoveActor` on an actor with no owning spatial cell returns failure
and changes no state; on an actor currently indexed — its back-reference
denotes a cell that holds it, and it is held exactly once in the whole tree —
`RemoveActor` returns success and the actor appears in no subsequent
full-tree `AppendActorList` enumeration. -/
theorem removeActor_spec (sg : SceneGraph) (a : Actor) :
    (a.quadTreeCell = none → sg.removeActorRef a = (sg, false)) ∧
    (∀ path c, a.quadTreeCell = some path →
      sg.quadTreeRoot.navigate path = some c →
      a.id ∈ c.getHeld →
      (sg.quadTreeRoot.appendActorList true).count a.id = 1 →
      (sg.removeActorRef a).2 = true ∧
      a.id ∉ ((sg.removeActorRef a).1.quadTreeRoot.appendActorList true)) := by
  constructor
  · intro hnone
    unfold SceneGraph.removeActorRef
    rw [hnone]
  · intro path c hpath hnav hmem hcount
    have hflag := removeActorAt_flag sg.quadTreeRoot path a.id
    have hnavb : sg.quadTreeRoot.navContains path a.id = c.getHeld.contains a.id := by
      unfold QuadTreeCell.navContains
      rw [hnav]
    have hcnt := removeActorAt_count sg.quadTreeRoot path a.id
    have hnavc : sg.quadTreeRoot.navCount path a.id = c.getHeld.count a.id := by
      unfold QuadTreeCell.navCount
      rw [hnav]
    rw [hnavb] at hflag
    rw [hnavc] at hcnt
    have hcpos : 0 < c.getHeld.count a.id := List.count_pos_iff.mpr hmem
    have hzero : ((sg.quadTreeRoot.removeActorAt path a.id).1.appendActorList true).count a.id = 0 := by
      omega
    constructor
    · have h2 : (sg.removeActorRef a).2 = (sg.quadTreeRoot.removeActorAt path a.id).2 := by
        unfold SceneGraph.removeActorRef
        rw [hpath]
      rw [h2, hflag]
      simpa using hmem
    · have hroot : (sg.removeActorRef a).1.quadTreeRoot
          = (sg.quadTreeRoot.removeActorAt path a.id).1 := by
        unfold SceneGraph.removeActorRef
        rw [hpath]
        rfl
      rw [hroot]
      exact List.count_eq_zero.mp hzero

/-- C8 witness: removal of the untracked actor 9 fails without touching the
scene; removal of the indexed actor 7 succeeds and actor 7 vanishes from the
full-tree enumeration. -/
theorem removeActor_spec_witness :
    (sgC8.removeActorRef aC8none = (sgC8, false)) ∧
    ((sgC8.removeActorRef aC8).2 = true ∧
      aC8.id ∉ ((sgC8.removeActorRef aC8).1.quadTreeRoot.appendActorList true)) := by
  refine ⟨(removeActor_spec sgC8 aC8none).1 rfl, ?_⟩
  exact (removeActor_spec sgC8 aC8).2 [] (.leaf ⟨0, 0, 10, 10⟩ [7]) rfl rfl
    (by decide) (by decide)

/-- Rectangles are equal when all four fields agree. -/
theorem Rect.ext4 (p q : Rect) (hx : p.x = q.x) (hy : p.y = q.y)
    (hw : p.w = q.w) (hh : p.h = q.h) : p = q := by
  cases p; cases q; simp_all

/-- The edge clamps do not change the box's width. -/
theorem clampBoxOnce_w (R r : Rect) : (clampBoxOnce R r).w = r.w := by
  simp only [clampBoxOnce, Rect.setX, Rect.setY]
  split_ifs <;> rfl

/-- The edge clamps do not change the box's height. -/
theorem clampBoxOnce_h (R r : Rect) : (clampBoxOnce R r).h = r.h := by
  simp only [clampBoxOnce, Rect.setX, Rect.setY]
  split_ifs <;> rfl

/-- A box no wider and no taller than the clamping region lies entirely
within it after the four sequential edge clamps. -/
theorem clampBoxOnce_contained (R r : Rect) (hw : r.w ≤ R.w) (hh : r.h ≤ R.h) :
    Rect.containedIn (clampBoxOnce R r) R := by
  simp only [clampBoxOnce, Rect.setX, Rect.setY, Rect.containedIn,
    Rect.left, Rect.right, Rect.top, Rect.bottom]
  split_ifs <;>
    (refine ⟨?_, ?_, ?_, ?_⟩ <;> (try dsimp only at *) <;> linarith)

/-- C2 amended: the boundary-clamping pass of `ResolveCollisions` enumerates
only the actors held *directly at the root cell* (it calls
`AppendActorList(actors, false)`), clamping each of their boxes in sequence;
for such an actor whose collision component holds a single bounding box no
wider or taller than the root region, the box lies entirely within the root
region after the pass.  Actors held in child cells are not clamped (see the
counterexample), with several boxes only the last-clamped box is guaranteed
in bounds, and the subsequent pairwise separation may displace actors
again. -/
theorem resolveCollisions_clamps_root_held (sg : SceneGraph) (a : Actor) (b : Rect)
    (ha : a ∈ sg.actors)
    (hheld : a.id ∈ sg.quadTreeRoot.appendActorList false)
    (hcol : a.hasCollision = true)
    (hboxes : a.boxes = [b])
    (hw : b.w ≤ sg.quadTreeRoot.getRegion.w)
    (hh : b.h ≤ sg.quadTreeRoot.getRegion.h) :
    clampActorStep sg.quadTreeRoot.getRegion a ∈ sg.clampActorsToBounds.actors ∧
    (clampActorStep sg.quadTreeRoot.getRegion a).id = a.id ∧
    Rect.containedIn ((clampActorStep sg.quadTreeRoot.getRegion a).worldBox b)
      sg.quadTreeRoot.getRegion := by
  refine ⟨?_, ?_, ?_⟩
  · unfold SceneGraph.clampActorsToBounds
    simp only [List.mem_map]
    exact ⟨a, ha, by simp [hheld]⟩
  · simp [clampActorStep, hcol, hboxes]
  · have hwbw : (clampBoxOnce sg.quadTreeRoot.getRegion (a.worldBox b)).w = b.w := by
      rw [clampBoxOnce_w]; rfl
    have hwbh : (clampBoxOnce sg.quadTreeRoot.getRegion (a.worldBox b)).h = b.h := by
      rw [clampBoxOnce_h]; rfl
    have key : ∀ (wb : Rect), wb.w = b.w → wb.h = b.h →
        Rect.setCentrePosition b (Pt.add (Pt.sub wb.centre b.pos) b.pos) = wb := by
      intro wb hbw hbh
      refine Rect.ext4 _ _ ?_ ?_ ?_ ?_ <;>
        simp [Rect.setCentrePosition, Rect.centre, Rect.pos, Pt.add, Pt.sub, hbw, hbh]
    have hstep : clampActorStep sg.quadTreeRoot.getRegion a
        = { a with position :=
              Pt.sub (clampBoxOnce sg.quadTreeRoot.getRegion (a.worldBox b)).centre b.pos } := by
      simp [clampActorStep, hcol, hboxes]
    have hwb : (clampActorStep sg.quadTreeRoot.getRegion a).worldBox b
        = clampBoxOnce sg.quadTreeRoot.getRegion (a.worldBox b) := by
      rw [hstep]
      exact key _ hwbw hwbh
    rw [hwb]
    exact clampBoxOnce_contained _ _ hw hh

/-- C2 witness: the clamping statement evaluated on the root-held actor 5 of
`sgC2w`, whose 2×2 box at position `(20, -3)` sticks out past the right and
top edges of the 10×10 world. -/
theorem resolveCollisions_clamps_root_held_witness :
    clampActorStep sgC2w.quadTreeRoot.getRegion actorEdge ∈ sgC2w.clampActorsToBounds.actors ∧
    (clampActorStep sgC2w.quadTreeRoot.getRegion actorEdge).id = actorEdge.id ∧
    Rect.containedIn ((clampActorStep sgC2w.quadTreeRoot.getRegion actorEdge).worldBox boxTwo)
      sgC2w.quadTreeRoot.getRegion :=
  resolveCollisions_clamps_root_held sgC2w actorEdge boxTwo
    (by simp [sgC2w, baseScene])
    (by decide)
    rfl
    rfl
    (by norm_num [boxTwo, sgC2w, baseScene, QuadTreeCell.getRegion])
    (by norm_num [boxTwo, sgC2w, baseScene, QuadTreeCell.getRegion])

/-- C2 counterexample: actor 1 of `sgC2ce` is held at a *child* cell, so the
clamping pass of `ResolveCollisions` (which enumerates the root cell without
recursing) never touches it: after `ResolveCollisions` (with the spec's
pairwise separation a no-op on this one-actor scene) the actor is unchanged
and its bounding box still lies far outside the root bounding region —
refuting "every actor in the scene (wherever it is held in the quad-tree)". -/
theorem resolveCollisions_containment_counterexample :
    ((sgC2ce.resolveCollisions id).actors = [actorFar]) ∧
    ¬ Rect.containedIn (actorFar.worldBox boxUnit) sgC2ce.quadTreeRoot.getRegion := by
  constructor
  · show (sgC2ce.clampActorsToBounds).actors = [actorFar]
    simp [SceneGraph.clampActorsToBounds, sgC2ce, baseScene, rootC2,
      QuadTreeCell.appendActorList, actorFar]
  · norm_num [Actor.worldBox, Rect.setCentrePosition, Rect.containedIn,
      Rect.left, Rect.right, Rect.top, Rect.bottom, Rect.pos, Pt.add,
      actorFar, boxUnit, sgC2ce, baseScene, rootC2, QuadTreeCell.getRegion]

end SceneGraphModel
